import Mathlib

/-!
Verification of the statement-normalization pipeline of the SmartFinance
repository (`smart_processor.py`).

The Python code is shallowly embedded: pandas cells become the inductive
`Cell` (strings, ints, floats, NaN/None, datetimes), a DataFrame becomes
a header list plus a row list, and operations that can raise return
`Except String`.  Python floats are modelled exactly by `PyF`, a decimal
`m / 10 ^ e` in canonical form (every numeric value appearing in the
claims and in the code's arithmetic is an exact decimal, hence exactly
representable as a double, so equalities transfer).  ASCII is assumed
where Python uses Unicode-aware classification (`str.lower`, `\d`,
`\s`); all inputs in the claims are ASCII apart from the rupee sign,
which is unaffected by lowercasing.
-/

deriving instance DecidableEq for Except

namespace SF

/-! ## Python string primitives (structural versions on `List Char`) -/

/-- Python whitespace as used by `str.strip` / regex `\s` (ASCII part). -/
def wsChar (c : Char) : Bool :=
  c = ' ' || c = '\t' || c = '\n' || c = '\r' || c = '\x0b' || c = '\x0c'

/-- Python `str.lower` (ASCII part; `Char.toLower` only lowers A-Z). -/
def pyLower (s : String) : String :=
  String.mk (s.data.map Char.toLower)

/-- Python `str.strip()`: remove leading and trailing whitespace. -/
def pyStrip (s : String) : String :=
  String.mk (((s.data.dropWhile wsChar).reverse.dropWhile wsChar).reverse)

/-- Python slicing `s[:n]`, which counts code points, as does `List.take`. -/
def pyTake (s : String) (n : Nat) : String :=
  String.mk (s.data.take n)

/-- Does `pat` occur at the head of the character list (case sensitive)? -/
def listBegins : List Char → List Char → Bool
  | [], _ => true
  | _ :: _, [] => false
  | p :: ps, c :: cs => p = c && listBegins ps cs

/-- Python `str.endswith` (on already-lowered strings in this development). -/
def strEndsWith (s suf : String) : Bool :=
  listBegins suf.data.reverse s.data.reverse

/-- Python `needle in hay` substring test (on char lists). -/
def containsSubList (needle : List Char) : List Char → Bool
  | [] => needle.isEmpty
  | c :: rest => listBegins needle (c :: rest) || containsSubList needle rest

/-- Python `needle in hay` substring test on strings. -/
def containsSub (hay needle : String) : Bool :=
  containsSubList needle.data hay.data

/-- Python `str.replace(pat, rep)`: left-to-right, non-overlapping replacement.
Structural recursion on a fuel bounded by the list length (each step
consumes at least one character, so the fuel never runs out). -/
def replaceGo (pat rep : List Char) : Nat → List Char → List Char
  | 0, cs => cs
  | _ + 1, [] => []
  | fuel + 1, c :: rest =>
    if listBegins pat (c :: rest) && !pat.isEmpty
    then rep ++ replaceGo pat rep fuel (rest.drop (pat.length - 1))
    else c :: replaceGo pat rep fuel rest

/-- Python `str.replace` on strings. -/
def pyReplace (s pat rep : String) : String :=
  String.mk (replaceGo pat.data rep.data s.data.length s.data)

/-- Python `str.splitlines` (common terminators `\r\n`, `\r`, `\n`). -/
def splitlinesGo : List Char → List Char → List String
  | acc, [] => if acc.isEmpty then [] else [String.mk acc.reverse]
  | acc, '\r' :: '\n' :: rest => String.mk acc.reverse :: splitlinesGo [] rest
  | acc, '\r' :: rest => String.mk acc.reverse :: splitlinesGo [] rest
  | acc, '\n' :: rest => String.mk acc.reverse :: splitlinesGo [] rest
  | acc, c :: rest => splitlinesGo (c :: acc) rest

/-- Python `str.splitlines` on strings. -/
def pySplitlines (s : String) : List String :=
  splitlinesGo [] s.data

/-- Python `str.split(sep)` with a one-character separator (Python semantics:
the empty string splits to `[""]`). -/
def splitOnChar (sep : Char) : List Char → List (List Char)
  | [] => [[]]
  | c :: rest =>
    let r := splitOnChar sep rest
    if c = sep then [] :: r
    else
      match r with
      | x :: xs => (c :: x) :: xs
      | [] => [[c]]

/-! ## Python floats as exact decimals

`PyF` represents the double `m / 10 ^ e`; the constructor `decMake`
canonicalises by stripping factors of 10 (so the representation of a
given decimal value is unique and structural equality coincides with
numeric equality of the modelled floats). -/

/-- An exact decimal value `m / 10 ^ e` (canonical: `10 ∤ m` unless `e = 0`). -/
structure PyF where
  m : Int
  e : Nat
deriving DecidableEq

/-- Strip factors of ten: returns the canonical `(m, e)` pair. -/
def canonDec (m : Int) : Nat → Int × Nat
  | 0 => (m, 0)
  | e + 1 => if m % 10 = 0 then canonDec (m / 10) e else (m, e + 1)

/-- Canonical constructor for `PyF`. -/
def decMake (m : Int) (e : Nat) : PyF :=
  let p := canonDec m e
  ⟨p.1, p.2⟩

/-- Negation of a float (canonical form is preserved). -/
def decNeg (p : PyF) : PyF :=
  ⟨-p.m, p.e⟩

/-- Addition of floats (exact on decimals). -/
def decAdd (a b : PyF) : PyF :=
  let e := max a.e b.e
  decMake (a.m * (10 : Int) ^ (e - a.e) + b.m * (10 : Int) ^ (e - b.e)) e

/-- The float 0.0. -/
def pyFZero : PyF := ⟨0, 0⟩

/-- The float of an integer. -/
def decOfInt (n : Int) : PyF := ⟨n, 0⟩

/-! ## Python `float()` on cleaned strings

After `_parse_amount`'s cleaning step the string contains only digits,
`'.'` and `'-'`; on that alphabet `float()` accepts an optional leading
minus followed by `digits`, `digits.digits?`, or `.digits`, and rejects
everything else (second signs, multiple dots, a dot with no digits on
either side, empty input, trailing garbage). -/

/-- Numeric value of a digit string. -/
def digitsToNat (cs : List Char) : Nat :=
  cs.foldl (fun acc c => acc * 10 + (c.toNat - 48)) 0

/-- Unsigned part of Python `float()` restricted to the `[0-9.]` alphabet. -/
def pyFloatCore (cs : List Char) : Option PyF :=
  let ds := cs.takeWhile Char.isDigit
  let r := cs.dropWhile Char.isDigit
  match r with
  | [] => if ds.isEmpty then none else some (decMake ((digitsToNat ds : Int)) 0)
  | '.' :: r2 =>
    let fs := r2.takeWhile Char.isDigit
    let r3 := r2.dropWhile Char.isDigit
    if !r3.isEmpty then none
    else if ds.isEmpty && fs.isEmpty then none
    else
      some (decMake ((digitsToNat ds : Int) * (10 : Int) ^ fs.length + (digitsToNat fs : Int))
        fs.length)
  | _ => none

/-- Python `float()` restricted to the `[0-9.-]` alphabet. -/
def pyFloat (cs : List Char) : Option PyF :=
  match cs with
  | '-' :: rest => (pyFloatCore rest).map decNeg
  | _ => pyFloatCore cs

/-! ## The data model: cells, dataframes, transaction records -/

/-- A pandas cell: string, int, float, NaN/None, or a datetime value
(only the calendar date of a datetime is ever used by the code). -/
inductive Cell where
  | cstr : String → Cell
  | cint : Int → Cell
  | cfloat : PyF → Cell
  | cnan : Cell
  | cdate : Nat → Nat → Nat → Cell
deriving DecidableEq

/-- A DataFrame: header names plus rows of cells (rectangular). -/
structure DataFrame where
  headers : List String
  rows : List (List Cell)
deriving DecidableEq

/-- One normalized transaction record.  `currency` models the optional
`"_currency"` key that `_extract_from_dataframe` adds to the first dict. -/
structure Txn where
  date : String
  description : String
  amount : PyF
  currency : Option String
deriving DecidableEq

/-! ## Rendering values back to strings (`str()`, `repr` of floats) -/

/-- Left-pad a digit string with zeros to width `w`. -/
def padZeros (s : String) (w : Nat) : String :=
  if s.length ≥ w then s else String.mk (List.replicate (w - s.length) '0') ++ s

/-- Python `repr` of a float: on canonical exact decimals this is the
sign, the integer part, and the (already minimal) fractional digits. -/
def floatRepr (p : PyF) : String :=
  let sgn := if p.m < 0 then ("-") else ("")
  let a := p.m.natAbs
  if p.e = 0 then sgn ++ toString a ++ (".0")
  else sgn ++ toString (a / 10 ^ p.e) ++ (".") ++ padZeros (toString (a % 10 ^ p.e)) p.e

/-- Zero-pad to two digits. -/
def pad2 (n : Nat) : String :=
  if n < 10 then ("0") ++ toString n else toString n

/-- Python `date.isoformat()`: `YYYY-MM-DD`. -/
def isoFormat (y m d : Nat) : String :=
  padZeros (toString y) 4 ++ ("-") ++ pad2 m ++ ("-") ++ pad2 d

/-- Python `str()` of a cell (pandas `astype(str)` applies this). -/
def cellToStr : Cell → String
  | .cstr s => s
  | .cint n => toString n
  | .cfloat q => floatRepr q
  | .cnan => ("nan")
  | .cdate y m d => isoFormat y m d ++ (" 00:00:00")

/-! ## `_parse_amount` (smart_processor.py lines 186-198) -/

/-- Characters kept by `re.sub(r'[^\d\.\-]', '', cleaned)` (ASCII `\d`). -/
def numChar (c : Char) : Bool :=
  c.isDigit || c = '.' || c = '-'

/-- The cleaning pipeline of `_parse_amount` on a string: remove commas
and currency markers (sequential `str.replace`), strip, then drop every
character other than digits, minus and dot. -/
def currencyCleaned (s : String) : String :=
  let c1 := pyReplace s (",") ("")
  let c2 := pyReplace c1 ("$") ("")
  let c3 := pyReplace c2 ("₹") ("")
  let c4 := pyReplace c3 ("Rs") ("")
  let c5 := pyReplace c4 ("rs") ("")
  let c6 := pyReplace c5 ("INR") ("")
  let c7 := pyReplace c6 ("inr") ("")
  String.mk ((pyStrip c7).data.filter numChar)

/-- The core of `_parse_amount` on a string value: clean, `float()`, 0.0 on failure. -/
def parseAmountStr (s : String) : PyF :=
  match pyFloat ((currencyCleaned s).data) with
  | some q => q
  | none => pyFZero

/-- The whole of `_parse_amount` on a cell.  The result is a Python float; `none`
would model NaN, which the function never produces (None/NaN input is
mapped to 0.0 before any arithmetic, numeric input passes through, and
`float()` over the `[0-9.-]` alphabet never yields NaN). -/
def parseAmountF : Cell → Option PyF
  | .cnan => some pyFZero
  | .cint n => some (decOfInt n)
  | .cfloat q => some q
  | .cstr s => some (parseAmountStr s)
  | .cdate y m d => some (parseAmountStr (cellToStr (.cdate y m d)))

/-! ## `_normalize_date` (lines 200-211) -/

/-- Gregorian leap year. -/
def isLeap (y : Nat) : Bool :=
  (y % 4 = 0 && y % 100 ≠ 0) || y % 400 = 0

/-- Days in a month (as validated by `datetime.strptime`). -/
def daysInMonth (y m : Nat) : Nat :=
  if m = 2 then (if isLeap y then 29 else 28)
  else if m = 4 || m = 6 || m = 9 || m = 11 then 30 else 31

/-- A numeric strptime field of 1 to `maxLen` digits (CPython compiles
`%m` and `%d` to patterns accepting one or two digits; out-of-range
values are rejected, here by `validYmd`). -/
def numFieldL (cs : List Char) (maxLen : Nat) : Option Nat :=
  if cs.length ≥ 1 && cs.length ≤ maxLen && cs.all Char.isDigit
  then some (digitsToNat cs) else none

/-- The strptime `%Y` field: CPython compiles it to exactly four digits. -/
def numFieldY (cs : List Char) : Option Nat :=
  if cs.length = 4 && cs.all Char.isDigit then some (digitsToNat cs) else none

/-- Calendar validation performed by `datetime.strptime`. -/
def validYmd (y m d : Nat) : Option (Nat × Nat × Nat) :=
  if 1 ≤ y && y ≤ 9999 && 1 ≤ m && m ≤ 12 && 1 ≤ d && d ≤ daysInMonth y m
  then some (y, m, d) else none

/-- Python `datetime.strptime(s, "%Y-%m-%d")`: since the digit classes exclude
the separator, the regex decomposition is exactly a 3-way split on `-`. -/
def strptimeYmd (s : String) : Option (Nat × Nat × Nat) :=
  match splitOnChar '-' s.data with
  | [a, b, c] =>
    match numFieldY a, numFieldL b 2, numFieldL c 2 with
    | some y, some m, some d => validYmd y m d
    | _, _, _ => none
  | _ => none

/-- Python `datetime.strptime(s, "%m/%d/%Y")`. -/
def strptimeMdy (s : String) : Option (Nat × Nat × Nat) :=
  match splitOnChar '/' s.data with
  | [a, b, c] =>
    match numFieldL a 2, numFieldL b 2, numFieldY c with
    | some m, some d, some y => validYmd y m d
    | _, _, _ => none
  | _ => none

/-- The function `_normalize_date`: NaN → "Unknown"; datetime → ISO date; else try
`%Y-%m-%d`, then `%m/%d/%Y` on `str(value)`; else keep the string. -/
def normalizeDate : Cell → String
  | .cnan => ("Unknown")
  | .cdate y m d => isoFormat y m d
  | v =>
    let s := cellToStr v
    match strptimeYmd s with
    | some (y, m, d) => isoFormat y m d
    | none =>
      match strptimeMdy s with
      | some (y, m, d) => isoFormat y m d
      | none => s

/-! ## `_detect_file_type` (lines 50-58) -/

/-- The function `_detect_file_type`: classify by lower-cased filename suffix. -/
def detectFileType (p : String) : String :=
  let pl := pyLower p
  if strEndsWith pl (".csv") then ("csv")
  else if strEndsWith pl (".xlsx") || strEndsWith pl (".xls") then ("excel")
  else if strEndsWith pl (".pdf") then ("pdf")
  else ("text")

/-! ## `_find_column` (lines 178-184) and column access -/

/-- The function `_find_column`: the first column (in header order) whose lower-cased
name contains any of the keywords as a substring. -/
def findColumn (headers keywords : List String) : Option String :=
  headers.find? (fun h => keywords.any (fun k => containsSub (pyLower h) k))

/-- Keyword list used for the unified amount column (line 114). -/
def amountKeywords : List String := ["amount", "transaction amount", "value", "debit"]

/-- Keyword list used for the date column (line 112). -/
def dateKeywords : List String := ["date", "transaction date", "posted date"]

/-- Keyword list used for the description column (line 113). -/
def descKeywords : List String := ["description", "merchant", "details", "payee", "narration"]

/-- Headers after `str(col).strip()` (line 110). -/
def strippedHeaders (df : DataFrame) : List String :=
  df.headers.map pyStrip

/-- The cell column named `name` (first matching header, row order). -/
def dfColumn (df : DataFrame) (name : String) : List Cell :=
  match (strippedHeaders df).findIdx? (fun h => h = name) with
  | some i => df.rows.map (fun r => r.getD i Cell.cnan)
  | none => df.rows.map (fun _ => Cell.cnan)

/-! ## Series arithmetic for the debit/credit branch (lines 119-124) -/

/-- Pandas `fillna(0)` on one cell. -/
def fillna0 : Cell → Cell
  | .cnan => .cint 0
  | c => c

/-- Unary minus on a cell (pandas raises `TypeError` on non-numbers). -/
def cellNeg : Cell → Except String Cell
  | .cint n => .ok (.cint (-n))
  | .cfloat q => .ok (.cfloat (decNeg q))
  | .cnan => .ok .cnan
  | .cstr _ => .error ("TypeError: bad operand type for unary -")
  | .cdate _ _ _ => .error ("TypeError: bad operand type for unary -")

/-- Addition of two cells (pandas semantics: numbers add, NaN
propagates, strings concatenate, mixtures raise `TypeError`). -/
def cellAdd : Cell → Cell → Except String Cell
  | .cint a, .cint b => .ok (.cint (a + b))
  | .cint a, .cfloat b => .ok (.cfloat (decAdd (decOfInt a) b))
  | .cfloat a, .cint b => .ok (.cfloat (decAdd a (decOfInt b)))
  | .cfloat a, .cfloat b => .ok (.cfloat (decAdd a b))
  | .cnan, .cint _ => .ok .cnan
  | .cnan, .cfloat _ => .ok .cnan
  | .cint _, .cnan => .ok .cnan
  | .cfloat _, .cnan => .ok .cnan
  | .cnan, .cnan => .ok .cnan
  | .cstr a, .cstr b => .ok (.cstr (a ++ b))
  | _, _ => .error ("TypeError: unsupported operand types for +")

/-- Apply a fallible cell operation across a column. -/
def mapExcept (f : Cell → Except String Cell) : List Cell → Except String (List Cell)
  | [] => .ok []
  | c :: cs =>
    match f c with
    | .error e => .error e
    | .ok c2 =>
      match mapExcept f cs with
      | .error e => .error e
      | .ok cs2 => .ok (c2 :: cs2)

/-- Pairwise addition of two columns. -/
def zipCellAdd : List Cell → List Cell → Except String (List Cell)
  | [], _ => .ok []
  | _, [] => .ok []
  | a :: as_, b :: bs =>
    match cellAdd a b with
    | .error e => .error e
    | .ok c =>
      match zipCellAdd as_ bs with
      | .error e => .error e
      | .ok cs => .ok (c :: cs)

/-! ## `_extract_from_dataframe` (lines 107-163) -/

/-- The `"Amount"` series (lines 114-126): a unified amount column if one
matches; otherwise the debit/credit synthesis; if neither exists the
later `normalized["Amount"]` access raises `KeyError`.  (Because
`amountKeywords` contains `"debit"`, the `debit_col` branches are
unreachable: any debit column is already picked up as the amount
column.) -/
def amountCells (df : DataFrame) : Except String (List Cell) :=
  match findColumn (strippedHeaders df) amountKeywords with
  | some c => .ok (dfColumn df c)
  | none =>
    match findColumn (strippedHeaders df) (["debit"]),
          findColumn (strippedHeaders df) (["credit"]) with
    | some dc, some cc =>
      match mapExcept cellNeg ((dfColumn df dc).map fillna0) with
      | .error e => .error e
      | .ok negs => zipCellAdd negs ((dfColumn df cc).map fillna0)
    | some dc, none => mapExcept cellNeg ((dfColumn df dc).map fillna0)
    | none, some cc => .ok ((dfColumn df cc).map fillna0)
    | none, none => .error ("KeyError: Amount")

/-- The `"Date"` series (lines 128-131). -/
def datesOf (df : DataFrame) : List String :=
  match findColumn (strippedHeaders df) dateKeywords with
  | none => df.rows.map (fun _ => ("Unknown"))
  | some c => (dfColumn df c).map normalizeDate

/-- The `"Description"` series (lines 133-136): `astype(str).str.strip()`. -/
def descsOf (df : DataFrame) : List String :=
  match findColumn (strippedHeaders df) descKeywords with
  | none => df.rows.map (fun _ => ("Unknown"))
  | some c => (dfColumn df c).map (fun cell => pyStrip (cellToStr cell))

/-- The row loop of lines 140-151: rows whose parsed amount is NaN are
skipped, all others become records (no `"_currency"` key yet). -/
def buildTxns : List String → List String → List (Option PyF) → List Txn
  | d :: ds, s :: ss, a :: as_ =>
    (match a with
     | none => buildTxns ds ss as_
     | some q => ⟨d, s, q, none⟩ :: buildTxns ds ss as_)
  | _, _, _ => []

/-- Records produced before the empty-set placeholder and the currency
annotation (lines 112-151). -/
def extractRecords (df : DataFrame) : Except String (List Txn) :=
  match amountCells df with
  | .error e => .error e
  | .ok ams => .ok (buildTxns (datesOf df) (descsOf df) (ams.map parseAmountF))

/-- The placeholder record of line 154. -/
def placeholderTxn : Txn :=
  ⟨("Unknown"), ("No transactions found"), pyFZero, none⟩

/-- Rupee signal of `_detect_currency` (line 170), on a lowered description. -/
def rupeeSig (s : String) : Bool :=
  containsSub s ("₹") || containsSub s ("inr") || containsSub s ("rupee")

/-- Dollar signal of `_detect_currency` (line 172), on a lowered description. -/
def dollarSig (s : String) : Bool :=
  containsSub s ("$") || containsSub s ("usd") || containsSub s ("dollar")

/-- The scan loop of `_detect_currency`: first record with a rupee
signal → "₹", first with a dollar signal → "$", default "₹". -/
def detectLoop : List Txn → String
  | [] => ("₹")
  | t :: rest =>
    let d := pyLower t.description
    if rupeeSig d then ("₹")
    else if dollarSig d then ("$")
    else detectLoop rest

/-- The function `_detect_currency` (lines 165-176): scan the first 10 records. -/
def detectCurrency (ts : List Txn) : String :=
  detectLoop (ts.take 10)

/-- Lines 156-161: attach `"_currency"` to the first record. -/
def attachCurrency : List Txn → List Txn
  | [] => []
  | t :: rest => ⟨t.date, t.description, t.amount, some (detectCurrency (t :: rest))⟩ :: rest

/-- The function `_extract_from_dataframe` in full: records, placeholder if empty,
currency annotation on the first record. -/
def extractFromDataframe (df : DataFrame) : Except String (List Txn) :=
  match extractRecords df with
  | .error e => .error e
  | .ok rs => .ok (attachCurrency (if rs.isEmpty then [placeholderTxn] else rs))

/-! ## The regex of `_parse_ai_transactions` (lines 213-217)

A small backtracking matcher, faithful to Python `re` semantics for the
fixed pattern
`Date:\s*(?P<date>.+?)\s*\|\s*Description:\s*(?P<description>.+?)\s*\|\s*Amount:\s*(?P<amount>[-\d\.,]+)`
with `re.IGNORECASE` and `.search` (leftmost match, depth-first
backtracking, lazy `+?` minimal-first, greedy `*`/`+` maximal-first). -/

/-- The class of `.` in a Python regex: any character except newline. -/
def dotChar (c : Char) : Bool :=
  c ≠ '\n'

/-- The amount character class `[-\d\.,]` (ASCII `\d`). -/
def amtChar (c : Char) : Bool :=
  c = '-' || c.isDigit || c = '.' || c = ','

/-- Elements of the fixed pattern: case-insensitive literals, greedy
`\s*`, lazy capturing `(.+?)`, greedy capturing `([...]+)`. -/
inductive RE where
  | lit : List Char → RE
  | wsStar : RE
  | anyLazy : Nat → RE
  | clsGreedy : (Char → Bool) → Nat → RE

/-- Captured groups: group index paired with captured characters. -/
abbrev Caps := List (Nat × List Char)

/-- Match a case-insensitive literal at the head of the input. -/
def dropLitCI : List Char → List Char → Option (List Char)
  | [], cs => some cs
  | _ :: _, [] => none
  | p :: ps, c :: cs =>
    if Char.toLower p = Char.toLower c then dropLitCI ps cs else none

/-- Greedy `\s*`: try consuming `k` characters, longest first. -/
def tryDrops (next : List Char → Option Caps) (cs : List Char) : Nat → Option Caps
  | 0 => next cs
  | k + 1 =>
    match next (cs.drop (k + 1)) with
    | some r => some r
    | none => tryDrops next cs k

/-- Lazy `(.+?)`: consume one character, try the continuation, extend on
failure. -/
def lazyRun (p : Char → Bool) (g : Nat) (next : List Char → Option Caps) :
    List Char → List Char → Option Caps
  | _, [] => none
  | acc, c :: cs =>
    if p c then
      match next cs with
      | some caps => some ((g, acc ++ [c]) :: caps)
      | none => lazyRun p g next (acc ++ [c]) cs
    else none

/-- Greedy `([...]+)`: try capture lengths from the maximal run down to 1. -/
def greedyCap (g : Nat) (next : List Char → Option Caps) (cs : List Char) :
    Nat → Option Caps
  | 0 => none
  | k + 1 =>
    match next (cs.drop (k + 1)) with
    | some caps => some ((g, cs.take (k + 1)) :: caps)
    | none => greedyCap g next cs k

/-- Match the pattern elements at the start of the input (the pattern
need not consume the whole input, as with `re.search`). -/
def reMatch : List RE → List Char → Option Caps
  | [], _ => some []
  | .lit s :: rest, cs =>
    (match dropLitCI s cs with
     | some cs2 => reMatch rest cs2
     | none => none)
  | .wsStar :: rest, cs =>
    tryDrops (fun cs2 => reMatch rest cs2) cs ((cs.takeWhile wsChar).length)
  | .anyLazy g :: rest, cs =>
    lazyRun dotChar g (fun cs2 => reMatch rest cs2) [] cs
  | .clsGreedy p g :: rest, cs =>
    greedyCap g (fun cs2 => reMatch rest cs2) cs ((cs.takeWhile p).length)

/-- Python `re.search`: try each start position from the left. -/
def reSearch (res : List RE) : List Char → Option Caps
  | [] => reMatch res []
  | c :: rest =>
    (match reMatch res (c :: rest) with
     | some r => some r
     | none => reSearch res rest)

/-- The fixed transaction pattern of line 214-217, groups: 0 = date,
1 = description, 2 = amount. -/
def txnPattern : List RE :=
  [.lit ("Date:").data, .wsStar, .anyLazy 0, .wsStar, .lit ("|").data, .wsStar,
   .lit ("Description:").data, .wsStar, .anyLazy 1, .wsStar, .lit ("|").data, .wsStar,
   .lit ("Amount:").data, .wsStar, .clsGreedy amtChar 2]

/-- Look up a captured group (the matcher emits all three on success). -/
def capLookup (caps : Caps) (g : Nat) : List Char :=
  match caps.find? (fun x => x.fst = g) with
  | some x => x.snd
  | none => []

/-! ## `_parse_ai_transactions` (lines 213-235) -/

/-- One loop iteration of lines 219-230: skip blank lines, search the
pattern, build a record from the captures. -/
def parseAiLine (line : String) : Option Txn :=
  if pyStrip line = ("") then none
  else
    match reSearch txnPattern line.data with
    | some caps =>
      some ⟨pyStrip (String.mk (capLookup caps 0)),
            pyStrip (String.mk (capLookup caps 1)),
            parseAmountStr (String.mk (capLookup caps 2)), none⟩
    | none => none

/-- The records collected from the matching lines. -/
def aiLineRecords (s : String) : List Txn :=
  (pySplitlines s).filterMap parseAiLine

/-- The function `_parse_ai_transactions`: matching lines become records; if none
match, one placeholder whose description is the first 40 characters of
the raw response. -/
def parseAiTransactions (s : String) : List Txn :=
  if (aiLineRecords s).isEmpty then [⟨("Unknown"), pyTake s 40, pyFZero, none⟩]
  else aiLineRecords s

/-! ## `_ai_extract_transactions` (lines 78-105) and the unstructured path -/

/-- The fixed prompt of lines 81-99 around the truncated raw content. -/
def aiPrompt (raw : String) : String :=
  ("You are a financial data extraction expert. Extract transaction information from this bank statement.\n\nBank Statement Content:\n")
    ++ pyTake raw 5000 ++
  ("  \n\nExtract ALL transactions and format them as a simple list. For each transaction, identify:\n- Date (if available)\n- Description/Merchant\n- Amount (mark expenses as negative)\n\nFormat your response as a clear list of transactions, one per line, like this:\nDate: 2024-01-01 | Description: Grocery Store | Amount: -125.50\nDate: 2024-01-02 | Description: Coffee Shop | Amount: -4.50\n\nIf dates are not clear, use \"Unknown\" for the date.\nIf amounts are not clear, estimate based on context or use 0.\nFocus on actual spending transactions, ignore headers, footers, and account summaries.\n\nExtract the transactions now:")

/-- The fallback label of line 105. -/
def fallbackLabel : String :=
  ("Raw bank statement data:\n")

/-- The function `_ai_extract_transactions` with the LLM as an injected fallible
text-completion function: on any exception the raw truncated content is
substituted, prefixed by the fixed label. -/
def aiExtractTransactions (llm : String → Except String String) (raw : String) : String :=
  match llm (aiPrompt raw) with
  | .ok response => response
  | .error _ => fallbackLabel ++ pyTake raw 3000

/-! ## `json.dumps(..., indent=2, ensure_ascii=False)` (line 48) -/

/-- Hex digit. -/
def hexDigit (n : Nat) : Char :=
  if n < 10 then Char.ofNat (48 + n) else Char.ofNat (87 + n)

/-- JSON string escaping as performed by `json.dumps` with
`ensure_ascii=False`. -/
def jsonEscapeChar (c : Char) : String :=
  if c = '"' then ("\\\"")
  else if c = '\\' then ("\\\\")
  else if c = '\n' then ("\\n")
  else if c = '\t' then ("\\t")
  else if c = '\r' then ("\\r")
  else if c = '\x08' then ("\\b")
  else if c = '\x0c' then ("\\f")
  else if c.toNat < 32 then
    ("\\u00") ++ String.mk [hexDigit (c.toNat / 16), hexDigit (c.toNat % 16)]
  else String.mk [c]

/-- A JSON string literal. -/
def jsonStr (s : String) : String :=
  ("\"") ++ String.join (s.data.map jsonEscapeChar) ++ ("\"")

/-- One record as rendered inside the indented array (keys in insertion
order: Date, Description, Amount, then `_currency` when present). -/
def txnJson (t : Txn) : String :=
  ("\x7b\n    \"Date\": ") ++ jsonStr t.date ++
  (",\n    \"Description\": ") ++ jsonStr t.description ++
  (",\n    \"Amount\": ") ++ floatRepr t.amount ++
  (match t.currency with
   | none => ("")
   | some c => (",\n    \"_currency\": ") ++ jsonStr c) ++
  ("\n  \x7d")

/-- Python `json.dumps(transactions, indent=2, ensure_ascii=False)`. -/
def jsonDumps (ts : List Txn) : String :=
  match ts with
  | [] => ("[]")
  | _ => ("[\n  ") ++ String.intercalate (",\n  ") (ts.map txnJson) ++ ("\n]")

/-- The function `process_file` on the unstructured (pdf/text) path, lines 43-48:
extract (or fall back), parse, serialize. -/
def processUnstructured (llm : String → Except String String) (raw : String) : String :=
  jsonDumps (parseAiTransactions (aiExtractTransactions llm raw))

/-- The `"_currency"` value of the first record of a batch, if any. -/
def headCurrency : List Txn → Option String
  | [] => none
  | t :: _ => t.currency

end SF

namespace SF

/-! ## Helper lemmas -/

theorem amountNone_debitNone (hs : List String)
    (h : findColumn hs amountKeywords = none) : findColumn hs (["debit"]) = none := by
  unfold findColumn at h ⊢
  rw [List.find?_eq_none] at h ⊢
  intro x hx
  have h2 := h x hx
  simp only [amountKeywords, List.any_cons, List.any_nil, Bool.or_eq_true] at h2 ⊢
  intro hc
  rcases hc with hd | hf
  · exact h2 (Or.inr (Or.inr (Or.inr (Or.inl hd))))
  · exact absurd hf (by simp)

theorem dfColumn_length (df : DataFrame) (c : String) :
    (dfColumn df c).length = df.rows.length := by
  unfold dfColumn
  split <;> simp

theorem mapExcept_ok_length (f : Cell → Except String Cell) :
    ∀ (l l2 : List Cell), mapExcept f l = .ok l2 → l2.length = l.length := by
  intro l
  induction l with
  | nil => intro l2 h; simp [mapExcept] at h; simp [← h]
  | cons c cs ih =>
    intro l2 h
    simp only [mapExcept] at h
    split at h
    · exact absurd h (by simp)
    · split at h
      · exact absurd h (by simp)
      · rename_i cs2 hcs2
        simp only [Except.ok.injEq] at h
        subst h
        simp [ih cs2 hcs2]

theorem zipCellAdd_ok_length :
    ∀ (a b l : List Cell), zipCellAdd a b = .ok l → l.length = min a.length b.length := by
  intro a
  induction a with
  | nil =>
    intro b l h
    simp only [zipCellAdd, Except.ok.injEq] at h
    subst h
    simp
  | cons x xs ih =>
    intro b l h
    cases b with
    | nil =>
      simp only [zipCellAdd, Except.ok.injEq] at h
      subst h
      simp
    | cons y ys =>
      simp only [zipCellAdd] at h
      split at h
      · exact absurd h (by simp)
      · split at h
        · exact absurd h (by simp)
        · rename_i cs hcs
          simp only [Except.ok.injEq] at h
          subst h
          simp [ih ys cs hcs, Nat.succ_min_succ]

theorem amountCells_ok_length (df : DataFrame) (l : List Cell)
    (h : amountCells df = .ok l) : l.length = df.rows.length := by
  unfold amountCells at h
  split at h
  · simp only [Except.ok.injEq] at h; subst h; exact dfColumn_length df _
  · split at h
    · split at h
      · exact absurd h (by simp)
      · rename_i negs hnegs
        have h1 := mapExcept_ok_length _ _ _ hnegs
        have h2 := zipCellAdd_ok_length _ _ _ h
        simp [dfColumn_length] at h1 h2 ⊢
        omega
    · have h1 := mapExcept_ok_length _ _ _ h
      simp [dfColumn_length] at h1
      exact h1
    · simp only [Except.ok.injEq] at h
      subst h
      simp [dfColumn_length]
    · exact absurd h (by simp)

theorem datesOf_length (df : DataFrame) : (datesOf df).length = df.rows.length := by
  unfold datesOf
  split <;> simp [dfColumn_length]

theorem descsOf_length (df : DataFrame) : (descsOf df).length = df.rows.length := by
  unfold descsOf
  split <;> simp [dfColumn_length]

theorem parseAmountF_isSome (c : Cell) : parseAmountF c ≠ none := by
  cases c <;> simp [parseAmountF]

theorem buildTxns_length :
    ∀ (as_ : List (Option PyF)) (ds ss : List String),
      ds.length = as_.length → ss.length = as_.length → (∀ a ∈ as_, a ≠ none) →
      (buildTxns ds ss as_).length = as_.length := by
  intro as_
  induction as_ with
  | nil =>
    intro ds ss hd hs _
    simp only [List.length_nil] at hd hs
    rw [List.length_eq_zero] at hd hs
    subst hd; subst hs
    simp [buildTxns]
  | cons a as_ ih =>
    intro ds ss hd hs hall
    cases ds with
    | nil => simp at hd
    | cons d ds =>
      cases ss with
      | nil => simp at hs
      | cons s ss =>
        have ha := hall a (by simp)
        cases a with
        | none => exact absurd rfl ha
        | some q =>
          simp only [buildTxns, List.length_cons]
          rw [ih ds ss (by simpa using hd) (by simpa using hs)
            (fun x hx => hall x (by simp [hx]))]

theorem buildTxns_map_date :
    ∀ (as_ : List (Option PyF)) (ds ss : List String),
      ds.length = as_.length → ss.length = as_.length → (∀ a ∈ as_, a ≠ none) →
      (buildTxns ds ss as_).map Txn.date = ds := by
  intro as_
  induction as_ with
  | nil =>
    intro ds ss hd hs _
    simp only [List.length_nil] at hd hs
    rw [List.length_eq_zero] at hd hs
    subst hd; subst hs
    simp [buildTxns]
  | cons a as_ ih =>
    intro ds ss hd hs hall
    cases ds with
    | nil => simp at hd
    | cons d ds =>
      cases ss with
      | nil => simp at hs
      | cons s ss =>
        have ha := hall a (by simp)
        cases a with
        | none => exact absurd rfl ha
        | some q =>
          simp only [buildTxns, List.map_cons]
          rw [ih ds ss (by simpa using hd) (by simpa using hs)
            (fun x hx => hall x (by simp [hx]))]

theorem buildTxns_currency :
    ∀ (as_ : List (Option PyF)) (ds ss : List String) (t : Txn),
      t ∈ buildTxns ds ss as_ → t.currency = none := by
  intro as_
  induction as_ with
  | nil =>
    intro ds ss t ht
    cases ds <;> cases ss <;> simp [buildTxns] at ht
  | cons a as_ ih =>
    intro ds ss t ht
    cases ds with
    | nil => simp [buildTxns] at ht
    | cons d ds =>
      cases ss with
      | nil => simp [buildTxns] at ht
      | cons s ss =>
        cases a with
        | none => exact ih ds ss t ht
        | some q =>
          simp only [buildTxns, List.mem_cons] at ht
          rcases ht with h | h
          · subst h; rfl
          · exact ih ds ss t h

theorem extractRecords_ok_elim (df : DataFrame) (rs : List Txn)
    (h : extractRecords df = .ok rs) :
    ∃ ams, amountCells df = .ok ams ∧
      rs = buildTxns (datesOf df) (descsOf df) (ams.map parseAmountF) := by
  unfold extractRecords at h
  split at h
  · exact absurd h (by simp)
  · rename_i ams hams
    simp only [Except.ok.injEq] at h
    exact ⟨ams, hams, h.symm⟩

theorem extractRecords_all_some (ams : List Cell) :
    ∀ a ∈ ams.map parseAmountF, a ≠ none := by
  intro a ha
  rw [List.mem_map] at ha
  obtain ⟨c, _, hc⟩ := ha
  rw [← hc]
  exact parseAmountF_isSome c

theorem extractRecords_ok_length (df : DataFrame) (rs : List Txn)
    (h : extractRecords df = .ok rs) : rs.length = df.rows.length := by
  obtain ⟨ams, hams, hrs⟩ := extractRecords_ok_elim df rs h
  have hl := amountCells_ok_length df ams hams
  subst hrs
  rw [buildTxns_length (ams.map parseAmountF) _ _
    (by simp [datesOf_length, hl]) (by simp [descsOf_length, hl])
    (extractRecords_all_some ams)]
  simp [hl]

theorem extractRecords_map_date (df : DataFrame) (rs : List Txn)
    (h : extractRecords df = .ok rs) : rs.map Txn.date = datesOf df := by
  obtain ⟨ams, hams, hrs⟩ := extractRecords_ok_elim df rs h
  have hl := amountCells_ok_length df ams hams
  subst hrs
  exact buildTxns_map_date (ams.map parseAmountF) _ _
    (by simp [datesOf_length, hl]) (by simp [descsOf_length, hl])
    (extractRecords_all_some ams)

theorem extractRecords_currency (df : DataFrame) (rs : List Txn)
    (h : extractRecords df = .ok rs) : ∀ t ∈ rs, t.currency = none := by
  obtain ⟨ams, _, hrs⟩ := extractRecords_ok_elim df rs h
  subst hrs
  exact fun t ht => buildTxns_currency _ _ _ t ht

theorem detectLoop_mem (l : List Txn) : detectLoop l = "₹" ∨ detectLoop l = "$" := by
  induction l with
  | nil => left; rfl
  | cons t rest ih =>
    simp only [detectLoop]
    split
    · left; rfl
    · split
      · right; rfl
      · exact ih

theorem detectLoop_noDollar (l : List Txn)
    (h : ∀ t ∈ l, dollarSig (pyLower t.description) = false) : detectLoop l = "₹" := by
  induction l with
  | nil => rfl
  | cons t rest ih =>
    simp only [detectLoop]
    split
    · rfl
    · split
      · rename_i hd
        rw [h t (by simp)] at hd
        exact absurd hd (by simp)
      · exact ih (fun x hx => h x (by simp [hx]))

theorem detectLoop_eq_of_desc :
    ∀ (l l' : List Txn), l.map Txn.description = l'.map Txn.description →
      detectLoop l = detectLoop l' := by
  intro l
  induction l with
  | nil =>
    intro l' h
    cases l' with
    | nil => rfl
    | cons _ _ => simp at h
  | cons t rest ih =>
    intro l' h
    cases l' with
    | nil => simp at h
    | cons t' rest' =>
      simp only [List.map_cons, List.cons.injEq] at h
      simp only [detectLoop, h.1]
      split
      · rfl
      · split
        · rfl
        · exact ih rest' h.2

theorem attachCurrency_map_date (l : List Txn) :
    (attachCurrency l).map Txn.date = l.map Txn.date := by
  cases l <;> simp [attachCurrency]

theorem attachCurrency_map_desc (l : List Txn) :
    (attachCurrency l).map Txn.description = l.map Txn.description := by
  cases l <;> simp [attachCurrency]

theorem attachCurrency_length (l : List Txn) :
    (attachCurrency l).length = l.length := by
  cases l <;> simp [attachCurrency]

theorem attachCurrency_head (t : Txn) (rest : List Txn) :
    headCurrency (attachCurrency (t :: rest)) = some (detectCurrency (t :: rest)) := rfl

theorem attachCurrency_tail (l : List Txn) :
    (attachCurrency l).tail = l.tail := by
  cases l <;> simp [attachCurrency]

theorem extract_ok_elim (df : DataFrame) (ts : List Txn)
    (h : extractFromDataframe df = .ok ts) :
    ∃ rs, extractRecords df = .ok rs ∧
      ts = attachCurrency (if rs.isEmpty then [placeholderTxn] else rs) := by
  unfold extractFromDataframe at h
  split at h
  · exact absurd h (by simp)
  · rename_i rs hrs
    simp only [Except.ok.injEq] at h
    exact ⟨rs, hrs, h.symm⟩

end SF

namespace SF

theorem extract_ok_cons (df : DataFrame) (ts : List Txn)
    (h : extractFromDataframe df = .ok ts) :
    ∃ x xs, ts = attachCurrency (x :: xs) ∧ ∀ t ∈ x :: xs, t.currency = none := by
  obtain ⟨rs, hrs, hts⟩ := extract_ok_elim df ts h
  cases rs with
  | nil =>
    refine ⟨placeholderTxn, [], by simpa using hts, ?_⟩
    intro t ht
    simp only [List.mem_singleton] at ht
    rw [ht]
    rfl
  | cons r rest =>
    refine ⟨r, rest, by simpa using hts, ?_⟩
    exact extractRecords_currency df (r :: rest) hrs

theorem parseAiLine_currency (l : String) (t : Txn)
    (h : parseAiLine l = some t) : t.currency = none := by
  unfold parseAiLine at h
  split at h
  · exact absurd h (by simp)
  · split at h
    · simp only [Option.some.injEq] at h
      rw [← h]
    · exact absurd h (by simp)

end SF

namespace SF

/-! ## Claim theorems -/

/-- Claim C1, counterexample: on a table with separate `Debit`/`Credit`
columns (and no `Amount` header), the claim predicts amount −120.0 for
the row debit=120, credit=0 and −70.0 for debit=120, credit=50; the
code instead selects the `Debit` column as the unified amount column
(keyword `"debit"` is in the amount keyword list) and passes its values
through unnegated, yielding +120.0 for both rows. -/
theorem c1_counterexample :
    extractFromDataframe
        ⟨[("Date"), ("Description"), ("Debit"), ("Credit")],
         [[.cstr ("2024-01-01"), .cstr ("Lunch"), .cint 120, .cint 0],
          [.cstr ("2024-01-02"), .cstr ("Dinner"), .cint 120, .cint 50]]⟩
      = .ok [⟨("2024-01-01"), ("Lunch"), ⟨120, 0⟩, some ("₹")⟩,
             ⟨("2024-01-02"), ("Dinner"), ⟨120, 0⟩, none⟩]
    ∧ (⟨120, 0⟩ : PyF) ≠ ⟨-120, 0⟩ ∧ (⟨120, 0⟩ : PyF) ≠ ⟨-70, 0⟩ := by
  refine ⟨by decide, by decide, by decide⟩

/-- Claim C1, amended: because the amount-keyword list contains
`"debit"`, the credit−debit synthesis and the debit-negation branches
are unreachable — whenever the amount-column search fails, no debit
column exists either.  When a debit column is present it is itself
selected as the amount column and its values pass through unnegated
(debit=120 → +120.0).  Only the credit-only branch of the synthesis is
live: with a credit column and no amount/debit match, the credit value
passes through (credit=50 → +50.0). -/
theorem c1_amended_thm :
    (∀ hs : List String,
      findColumn hs amountKeywords = none → findColumn hs (["debit"]) = none)
    ∧ extractFromDataframe
        ⟨[("Date"), ("Description"), ("Credit")],
         [[.cstr ("2024-01-03"), .cstr ("Refund"), .cint 50]]⟩
      = .ok [⟨("2024-01-03"), ("Refund"), ⟨50, 0⟩, some ("₹")⟩]
    ∧ extractFromDataframe
        ⟨[("Date"), ("Description"), ("Debit"), ("Credit")],
         [[.cstr ("2024-01-01"), .cstr ("Lunch"), .cint 120, .cint 0]]⟩
      = .ok [⟨("2024-01-01"), ("Lunch"), ⟨120, 0⟩, some ("₹")⟩] :=
  ⟨amountNone_debitNone, by decide, by decide⟩

/-- Claim C1, witness for the amended theorem: a concrete header list
with no amount-keyword column indeed has no debit column. -/
theorem c1_amended_witness :
    findColumn ([("Date"), ("Memo")]) (["debit"]) = none :=
  c1_amended_thm.1 ([("Date"), ("Memo")]) (by decide)

/-- Claim C2, counterexample: the claim says that with neither an
amount-keyword column nor debit/credit columns, normalization does not
raise and every record's Amount is 0.0; the code instead raises a
`KeyError` at `normalized["Amount"].apply(...)` because no `"Amount"`
column was ever assigned. -/
theorem c2_counterexample :
    extractFromDataframe
        ⟨[("Date"), ("Description"), ("Memo")],
         [[.cstr ("2024-01-01"), .cstr ("Lunch"), .cstr ("x")]]⟩
      = .error ("KeyError: Amount") := by
  decide

/-- Claim C2, amended: for every tabular input whose headers match
neither the amount keywords (amount / transaction amount / value /
debit) nor `"credit"`, normalization raises `KeyError` on the missing
`"Amount"` column and produces no records (rather than records with
Amount 0.0). -/
theorem c2_amended_thm (df : DataFrame)
    (h1 : findColumn (strippedHeaders df) amountKeywords = none)
    (h2 : findColumn (strippedHeaders df) (["credit"]) = none) :
    extractFromDataframe df = .error ("KeyError: Amount") := by
  have ha : amountCells df = .error ("KeyError: Amount") := by
    unfold amountCells
    rw [h1, amountNone_debitNone _ h1, h2]
  have hr : extractRecords df = .error ("KeyError: Amount") := by
    unfold extractRecords
    rw [ha]
  unfold extractFromDataframe
  rw [hr]

/-- Claim C2, witness: a concrete dataframe satisfying the hypotheses
of the amended theorem. -/
theorem c2_amended_witness :
    extractFromDataframe
        ⟨[("Posted"), ("Narration")], [[.cstr ("2024-01-01"), .cstr ("Lunch")]]⟩
      = .error ("KeyError: Amount") :=
  c2_amended_thm ⟨[("Posted"), ("Narration")], [[.cstr ("2024-01-01"), .cstr ("Lunch")]]⟩
    (by decide) (by decide)

/-- Claim C3, counterexample: the claim says `"Rs. 1,250.75"` parses to
1250.75; in fact stripping `"Rs"` leaves `". 1,250.75"`, whose cleaned
form `".1250.75"` has two decimal points, so `float()` fails and the
function returns 0.0. -/
theorem c3_counterexample :
    parseAmountStr ("Rs. 1,250.75") = pyFZero ∧ pyFZero ≠ (⟨125075, 2⟩ : PyF) := by
  refine ⟨by decide, by decide⟩

/-- Claim C3, amended: the amount parser strips thousands separators
and the currency markers, strips remaining characters other than
digits, minus and dot, parses as float, and returns 0.0 on any parse
failure (it is total and never NaN).  `"-$45.00"` parses to −45.0 and
`"N/A"` to 0.0 as claimed, but `"Rs. 1,250.75"` parses to 0.0, not
1250.75, because removing `"Rs"` leaves a leading dot: the cleaned
string `".1250.75"` is unparseable. -/
theorem c3_amended_thm :
    parseAmountStr ("Rs. 1,250.75") = pyFZero
    ∧ currencyCleaned ("Rs. 1,250.75") = (".1250.75")
    ∧ parseAmountStr ("-$45.00") = decOfInt (-45)
    ∧ parseAmountStr ("N/A") = pyFZero
    ∧ ∀ c : Cell, parseAmountF c ≠ none :=
  ⟨by decide, by decide, by decide, by decide, parseAmountF_isSome⟩

/-- Claim C4, counterexample: the claim says a row whose amount is
unparseable is dropped from the output; in fact `_parse_amount` maps
the unparseable `"N/A"` to 0.0 (never NaN), so the `pd.isna` filter
never fires and the row is kept with Amount 0.0. -/
theorem c4_counterexample :
    extractFromDataframe
        ⟨[("Date"), ("Description"), ("Amount")],
         [[.cstr ("2024-01-01"), .cstr ("Fee"), .cstr ("N/A")],
          [.cstr ("2024-01-02"), .cstr ("Coffee"), .cstr ("5")]]⟩
      = .ok [⟨("2024-01-01"), ("Fee"), ⟨0, 0⟩, some ("₹")⟩,
             ⟨("2024-01-02"), ("Coffee"), ⟨5, 0⟩, none⟩] := by
  decide

/-- Claim C4, amended: no row of a tabular input is ever dropped; the
parsed amount column contains no NaN (failures degrade to 0.0), so
whenever extraction succeeds the output has exactly one record per
input row (or the single placeholder when there are zero rows). -/
theorem c4_amended_thm (df : DataFrame) (ts : List Txn)
    (h : extractFromDataframe df = .ok ts) :
    ts.length = max df.rows.length 1 := by
  obtain ⟨rs, hrs, hts⟩ := extract_ok_elim df ts h
  have hlen := extractRecords_ok_length df rs hrs
  cases rs with
  | nil =>
    subst hts
    simp only [List.length_nil] at hlen
    simp [attachCurrency_length, ← hlen]
  | cons r rest =>
    subst hts
    simp only [List.isEmpty_cons, if_false, Bool.false_eq_true] at *
    rw [attachCurrency_length, hlen]
    have : 1 ≤ df.rows.length := by
      rw [← hlen]; simp
    omega

/-- Claim C4, witness for the amended theorem at a concrete two-row
input containing an unparseable amount. -/
theorem c4_amended_witness :
    ([⟨("2024-01-01"), ("Fee"), ⟨0, 0⟩, some ("₹")⟩,
      ⟨("2024-01-02"), ("Coffee"), ⟨5, 0⟩, none⟩] : List Txn).length
      = max (DataFrame.mk [("Date"), ("Description"), ("Amount")]
          [[.cstr ("2024-01-01"), .cstr ("Fee"), .cstr ("N/A")],
           [.cstr ("2024-01-02"), .cstr ("Coffee"), .cstr ("5")]]).rows.length 1 :=
  c4_amended_thm _ _ (by decide)

/-- Claim C5 (confirmed): if the record set is empty after the row
loop, `_extract_from_dataframe` returns exactly the placeholder record
with Date "Unknown", Description "No transactions found" and Amount
0.0 (annotated with the default currency); and a successful extraction
never returns an empty list. -/
theorem c5_thm :
    (∀ df : DataFrame, extractRecords df = .ok [] →
      extractFromDataframe df
        = .ok [⟨("Unknown"), ("No transactions found"), pyFZero, some ("₹")⟩])
    ∧ (∀ (df : DataFrame) (ts : List Txn), extractFromDataframe df = .ok ts → ts ≠ []) := by
  constructor
  · intro df h
    unfold extractFromDataframe
    rw [h]
    rfl
  · intro df ts h
    obtain ⟨x, xs, hts, _⟩ := extract_ok_cons df ts h
    rw [hts]
    simp [attachCurrency]

/-- Claim C5, witness: a dataframe with zero rows produces exactly the
placeholder record. -/
theorem c5_witness :
    extractFromDataframe ⟨[("Date"), ("Description"), ("Amount")], []⟩
      = .ok [⟨("Unknown"), ("No transactions found"), pyFZero, some ("₹")⟩] :=
  c5_thm.1 ⟨[("Date"), ("Description"), ("Amount")], []⟩ (by decide)

/-- Claim C6 (confirmed): the well-formed extractor line parses to the
claimed record; non-matching and blank lines are silently skipped; and
when no line matches, the single placeholder record carries the first
40 characters of the raw response and amount 0.0. -/
theorem c6_thm :
    parseAiTransactions ("Date: 2024-01-02 | Description: Coffee Shop | Amount: -4.50")
      = [⟨("2024-01-02"), ("Coffee Shop"), ⟨-45, 1⟩, none⟩]
    ∧ parseAiTransactions
        ("Some header\nDate: 2024-01-02 | Description: Coffee Shop | Amount: -4.50\n\nTotal: 100\n")
      = [⟨("2024-01-02"), ("Coffee Shop"), ⟨-45, 1⟩, none⟩]
    ∧ (∀ s : String, aiLineRecords s = [] →
        parseAiTransactions s = [⟨("Unknown"), pyTake s 40, pyFZero, none⟩])
    ∧ (∀ s : String, aiLineRecords s ≠ [] → parseAiTransactions s = aiLineRecords s) := by
  refine ⟨by decide, by decide, ?_, ?_⟩
  · intro s h
    unfold parseAiTransactions
    rw [h]
    rfl
  · intro s h
    unfold parseAiTransactions
    rw [if_neg]
    simpa [List.isEmpty_iff] using h

/-- Claim C6, witness: a response with no matching line yields the
placeholder whose description is the (at most) 40-character head. -/
theorem c6_witness :
    parseAiTransactions ("hello world")
      = [⟨("Unknown"), pyTake ("hello world") 40, pyFZero, none⟩] :=
  c6_thm.2.2.1 ("hello world") (by decide)

/-- Claim C7 (confirmed): when the LLM call raises, the failure is
caught and replaced by the fixed label followed by the first 3000
characters of the raw text, and the unstructured normalization path
still returns the JSON serialization of the parsed records rather than
propagating the exception. -/
theorem c7_thm (raw e : String) :
    aiExtractTransactions (fun _ => .error e) raw = fallbackLabel ++ pyTake raw 3000
    ∧ processUnstructured (fun _ => .error e) raw
      = jsonDumps (parseAiTransactions (fallbackLabel ++ pyTake raw 3000)) :=
  ⟨rfl, rfl⟩

/-- Claim C8 (confirmed): with no date column every record's Date is
"Unknown"; with a date column the records' dates are exactly the
normalized date cells; and `_normalize_date` formats a native datetime
as an ISO date, parses `%Y-%m-%d` first and then `%m/%d/%Y` (so
`"03/05/2024"` becomes `"2024-03-05"`), and otherwise keeps the
original string. -/
theorem c8_thm :
    (∀ (df : DataFrame) (ts : List Txn),
      findColumn (strippedHeaders df) dateKeywords = none →
      extractFromDataframe df = .ok ts → ∀ t ∈ ts, t.date = ("Unknown"))
    ∧ (∀ (df : DataFrame) (ts : List Txn), df.rows ≠ [] →
        extractFromDataframe df = .ok ts → ts.map Txn.date = datesOf df)
    ∧ (∀ y m d : Nat, normalizeDate (.cdate y m d) = isoFormat y m d)
    ∧ (∀ (s : String) (y m d : Nat), strptimeYmd s = some (y, m, d) →
        normalizeDate (.cstr s) = isoFormat y m d)
    ∧ normalizeDate (.cstr ("03/05/2024")) = ("2024-03-05")
    ∧ (∀ s : String, strptimeYmd s = none → strptimeMdy s = none →
        normalizeDate (.cstr s) = s) := by
  refine ⟨?_, ?_, ?_, ?_, by decide, ?_⟩
  · intro df ts hdc h t ht
    obtain ⟨rs, hrs, hts⟩ := extract_ok_elim df ts h
    cases rs with
    | nil =>
      subst hts
      simp only [List.isEmpty_nil, if_true] at ht
      have : attachCurrency [placeholderTxn]
          = [⟨("Unknown"), ("No transactions found"), pyFZero, some ("₹")⟩] := by decide
      rw [this] at ht
      simp only [List.mem_singleton] at ht
      rw [ht]
    | cons r rest =>
      subst hts
      simp only [List.isEmpty_cons, if_false, Bool.false_eq_true] at ht
      have hmap : ((attachCurrency (r :: rest)).map Txn.date)
          = df.rows.map (fun _ => ("Unknown")) := by
        rw [attachCurrency_map_date, extractRecords_map_date df _ hrs]
        unfold datesOf
        rw [hdc]
      have : t.date ∈ (attachCurrency (r :: rest)).map Txn.date :=
        List.mem_map_of_mem Txn.date ht
      rw [hmap] at this
      rw [List.mem_map] at this
      obtain ⟨_, _, he⟩ := this
      rw [← he]
  · intro df ts hrows h
    obtain ⟨rs, hrs, hts⟩ := extract_ok_elim df ts h
    have hlen := extractRecords_ok_length df rs hrs
    cases rs with
    | nil =>
      exact absurd (by simpa using hlen.symm) hrows
    | cons r rest =>
      subst hts
      simp only [List.isEmpty_cons, if_false, Bool.false_eq_true]
      rw [attachCurrency_map_date]
      exact extractRecords_map_date df _ hrs
  · intro y m d
    rfl
  · intro s y m d h
    simp only [normalizeDate, cellToStr]
    rw [h]
  · intro s h1 h2
    simp only [normalizeDate, cellToStr]
    rw [h1, h2]

/-- Claim C8, witness: a concrete one-row dataframe with a date column
whose records' dates equal the normalized date series, and the two
strptime fallbacks exercised. -/
theorem c8_witness :
    ([⟨("2024-03-05"), ("Groceries"), ⟨0, 0⟩, some ("₹")⟩] : List Txn).map Txn.date
      = datesOf ⟨[("Transaction Date"), ("Description"), ("Amount")],
                 [[.cstr ("2024-03-05"), .cstr ("Groceries"), .cstr ("0")]]⟩
    ∧ normalizeDate (.cstr ("garbage")) = ("garbage") :=
  ⟨c8_thm.2.1 _ _ (by decide) (by decide),
   c8_thm.2.2.2.2.2 ("garbage") (by decide) (by decide)⟩

/-- Claim C9 (confirmed): the format detector is a pure function of the
lower-cased filename, always returns one of csv / excel / pdf / text,
and each tag is characterized exactly by the case-insensitive suffix
tests in the order the code applies them (unknown suffixes fall back to
text). -/
theorem c9_thm (p q : String) :
    (pyLower p = pyLower q → detectFileType p = detectFileType q)
    ∧ (detectFileType p = ("csv") ∨ detectFileType p = ("excel")
        ∨ detectFileType p = ("pdf") ∨ detectFileType p = ("text"))
    ∧ (detectFileType p = ("csv") ↔ strEndsWith (pyLower p) (".csv") = true)
    ∧ (detectFileType p = ("excel") ↔
        (strEndsWith (pyLower p) (".csv") = false
          ∧ (strEndsWith (pyLower p) (".xlsx") = true
              ∨ strEndsWith (pyLower p) (".xls") = true)))
    ∧ (detectFileType p = ("pdf") ↔
        (strEndsWith (pyLower p) (".csv") = false
          ∧ strEndsWith (pyLower p) (".xlsx") = false
          ∧ strEndsWith (pyLower p) (".xls") = false
          ∧ strEndsWith (pyLower p) (".pdf") = true))
    ∧ (detectFileType p = ("text") ↔
        (strEndsWith (pyLower p) (".csv") = false
          ∧ strEndsWith (pyLower p) (".xlsx") = false
          ∧ strEndsWith (pyLower p) (".xls") = false
          ∧ strEndsWith (pyLower p) (".pdf") = false)) := by
  refine ⟨fun h => by unfold detectFileType; rw [h], ?_⟩
  unfold detectFileType
  cases h1 : strEndsWith (pyLower p) (".csv") <;>
    cases h2 : strEndsWith (pyLower p) (".xlsx") <;>
      cases h3 : strEndsWith (pyLower p) (".xls") <;>
        cases h4 : strEndsWith (pyLower p) (".pdf") <;>
          simp [h1, h2, h3, h4]

/-- Claim C9, witness: case-insensitivity at a concrete pair of paths
that lower to the same string. -/
theorem c9_witness : detectFileType ("A.CSV") = detectFileType ("a.csv") :=
  (c9_thm ("A.CSV") ("a.csv")).1 (by decide)

/-- Claim C10 (confirmed): on the tabular path the first record always
carries a `"_currency"` value that is exactly "₹" or "$"; it is "₹"
whenever no record among the first 10 has a dollar signal in its
description; a rupee signal in a record takes priority over a dollar
signal in the same record; no record after the first carries the key;
and records from the unstructured path never carry it. -/
theorem c10_thm :
    (∀ (df : DataFrame) (ts : List Txn), extractFromDataframe df = .ok ts →
      headCurrency ts = some ("₹") ∨ headCurrency ts = some ("$"))
    ∧ (∀ (df : DataFrame) (ts : List Txn), extractFromDataframe df = .ok ts →
        (∀ t ∈ ts.take 10, dollarSig (pyLower t.description) = false) →
        headCurrency ts = some ("₹"))
    ∧ (∀ (t : Txn) (rest : List Txn), rupeeSig (pyLower t.description) = true →
        detectCurrency (t :: rest) = ("₹"))
    ∧ (∀ (df : DataFrame) (ts : List Txn), extractFromDataframe df = .ok ts →
        ∀ t ∈ ts.tail, t.currency = none)
    ∧ (∀ (s : String) (t : Txn), t ∈ parseAiTransactions s → t.currency = none) := by
  refine ⟨?_, ?_, ?_, ?_, ?_⟩
  · intro df ts h
    obtain ⟨x, xs, hts, _⟩ := extract_ok_cons df ts h
    rw [hts, attachCurrency_head]
    unfold detectCurrency
    rcases detectLoop_mem ((x :: xs).take 10) with hm | hm
    · left; rw [hm]
    · right; rw [hm]
  · intro df ts h hdollar
    obtain ⟨x, xs, hts, _⟩ := extract_ok_cons df ts h
    have hdesc : ((x :: xs).take 10).map Txn.description
        = (ts.take 10).map Txn.description := by
      rw [hts, List.map_take, List.map_take, attachCurrency_map_desc]
    have hnd : ∀ t ∈ (x :: xs).take 10, dollarSig (pyLower t.description) = false := by
      intro t ht
      have hmem : t.description ∈ (ts.take 10).map Txn.description := by
        rw [← hdesc]
        exact List.mem_map_of_mem Txn.description ht
      rw [List.mem_map] at hmem
      obtain ⟨t', ht', he⟩ := hmem
      rw [← he]
      exact hdollar t' ht'
    rw [hts, attachCurrency_head]
    unfold detectCurrency
    rw [detectLoop_noDollar _ hnd]
  · intro t rest h
    simp [detectCurrency, List.take_succ_cons, detectLoop, h]
  · intro df ts h t ht
    obtain ⟨x, xs, hts, hcur⟩ := extract_ok_cons df ts h
    rw [hts, attachCurrency_tail] at ht
    simp only [List.tail_cons] at ht
    exact hcur t (List.mem_cons_of_mem x ht)
  · intro s t ht
    unfold parseAiTransactions at ht
    split at ht
    · simp only [List.mem_singleton] at ht
      rw [ht]
    · rw [aiLineRecords, List.mem_filterMap] at ht
      obtain ⟨l, _, hl⟩ := ht
      exact parseAiLine_currency l t hl

/-- Claim C10, witness: a rupee signal in the first record forces "₹"
even though the same record also contains a dollar signal. -/
theorem c10_witness :
    detectCurrency [⟨("Unknown"), ("Paid ₹100 (approx $1.2)"), ⟨0, 0⟩, none⟩] = ("₹") :=
  c10_thm.2.2.1 ⟨("Unknown"), ("Paid ₹100 (approx $1.2)"), ⟨0, 0⟩, none⟩ [] (by decide)

end SF
